import Mathlib

/-!
Verification of the event-indexing core of the `ponder` repository.

The central object is the cross-network event aggregator
(`packages/core/src/event-aggregator/gql-service.ts`,
class `GqlEventAggregatorService`).  Its checkpoint state machine is embedded
below together with the indexing-server resolvers
(`packages/core/src/indexing-server/resolvers.ts`), the network configuration
derivations (`packages/core/src/config/networks.ts`), the paid RPC provider
(`PaidRPCProvider.request` and `PaymentService.payNetwork`), the HTTP `/health`
handlers, and the `getEthBlock` resolver.

Timestamps are JS numbers; the aggregator compares them with `Math.min` /
`Math.max`, whose value on an empty argument list is `Infinity` / `-Infinity`.
We therefore model checkpoint values as `ℕ∞` (`WithTop ℕ`), where `⊤` plays the
role of `Infinity`.  All timestamps fed into the services are finite naturals.
-/

namespace Ponder

/-- Per-network checkpoint record of `GqlEventAggregatorService`
(`networkCheckpoints` entry, gql-service.ts lines 47-55). -/
structure NetworkCheckpoint where
  isHistoricalSyncComplete : Bool
  historicalCheckpoint : ℕ∞
  realtimeCheckpoint : ℕ∞
  finalityCheckpoint : ℕ∞
deriving DecidableEq

/-- Initial per-network entry installed by the constructor
(gql-service.ts lines 83-90). -/
def initialNetworkCheckpoint : NetworkCheckpoint :=
  { isHistoricalSyncComplete := false
    historicalCheckpoint := 0
    realtimeCheckpoint := 0
    finalityCheckpoint := 0 }

/-- The JS object `Record<number, NetworkCheckpoint>` keyed by chainId is
modelled as an association list.  A key is present when some pair carries it. -/
def recordHas (rec : List (ℕ × NetworkCheckpoint)) (chainId : ℕ) : Bool :=
  rec.any fun p => p.1 = chainId

/-- Update the entry at `chainId` in place (JS property assignment on an
existing key).  Entries with other keys are untouched. -/
def recordSet (rec : List (ℕ × NetworkCheckpoint)) (chainId : ℕ)
    (f : NetworkCheckpoint → NetworkCheckpoint) : List (ℕ × NetworkCheckpoint) :=
  rec.map fun p => if p.1 = chainId then (p.1, f p.2) else p

/-- Mutable state of `GqlEventAggregatorService`: the public `checkpoint` and
`finalityCheckpoint` fields, the optional `historicalSyncCompletedAt`, and the
per-network record. -/
structure AggState where
  checkpoint : ℕ∞
  finalityCheckpoint : ℕ∞
  historicalSyncCompletedAt : Option ℕ∞
  networkCheckpoints : List (ℕ × NetworkCheckpoint)
deriving DecidableEq

/-- Constructor of `GqlEventAggregatorService` (gql-service.ts lines 59-91):
`checkpoint = 0`, `finalityCheckpoint = 0`, `historicalSyncCompletedAt`
undefined, and one fresh per-network entry per registered network.  Config
networks carry distinct chainIds (the chain client table is keyed by chainId),
so the association list has distinct keys. -/
def initAggState (chainIds : List ℕ) : AggState :=
  { checkpoint := 0
    finalityCheckpoint := 0
    historicalSyncCompletedAt := none
    networkCheckpoints := chainIds.map fun c => (c, initialNetworkCheckpoint) }

/-- `Math.min(...xs)`: the minimum of the list, `Infinity` (`⊤`) on the empty
list. -/
def mathMin (xs : List ℕ∞) : ℕ∞ :=
  xs.foldr min ⊤

/-- `Math.max(...xs)` restricted to the non-negative values that occur here.
JS yields `-Infinity` on the empty list; the aggregator only applies it to the
non-empty record of a service whose handler was entered with a registered
chainId, where the fold below coincides with `Math.max`. -/
def mathMax (xs : List ℕ∞) : ℕ∞ :=
  xs.foldr max 0

/-- Per-network contribution inside `recalculateCheckpoint`
(gql-service.ts lines 266-270):
`isHistoricalSyncComplete ? Math.max(historical, realtime) : historical`. -/
def perNetworkCheckpoint (n : NetworkCheckpoint) : ℕ∞ :=
  if n.isHistoricalSyncComplete then
    max n.historicalCheckpoint n.realtimeCheckpoint
  else n.historicalCheckpoint

/-- The `newCheckpoint` value computed by `recalculateCheckpoint`
(gql-service.ts line 271): `Math.min` over the per-network contributions of
`Object.values(this.networkCheckpoints)`. -/
def globalCheckpoint (s : AggState) : ℕ∞ :=
  mathMin (s.networkCheckpoints.map fun p => perNetworkCheckpoint p.2)

/-- `recalculateCheckpoint` (gql-service.ts lines 265-285).  Returns the new
state together with the payload of the `newCheckpoint` event when one is
emitted. -/
def recalculateCheckpoint (s : AggState) : AggState × Option ℕ∞ :=
  if s.checkpoint < globalCheckpoint s then
    ({ s with checkpoint := globalCheckpoint s }, some (globalCheckpoint s))
  else (s, none)

/-- The `newFinalityCheckpoint` value computed by
`recalculateFinalityCheckpoint` (gql-service.ts lines 288-290). -/
def globalFinalityCheckpoint (s : AggState) : ℕ∞ :=
  mathMin (s.networkCheckpoints.map fun p => p.2.finalityCheckpoint)

/-- `recalculateFinalityCheckpoint` (gql-service.ts lines 287-306), with the
emitted `newFinalityCheckpoint` payload. -/
def recalculateFinalityCheckpoint (s : AggState) : AggState × Option ℕ∞ :=
  if s.finalityCheckpoint < globalFinalityCheckpoint s then
    ({ s with finalityCheckpoint := globalFinalityCheckpoint s },
      some (globalFinalityCheckpoint s))
  else (s, none)

/-- Field assignment `n.historicalCheckpoint = timestamp`. -/
def setHistoricalCkpt (timestamp : ℕ) (n : NetworkCheckpoint) : NetworkCheckpoint :=
  { n with historicalCheckpoint := (timestamp : ℕ∞) }

/-- Field assignment `n.realtimeCheckpoint = timestamp`. -/
def setRealtimeCkpt (timestamp : ℕ) (n : NetworkCheckpoint) : NetworkCheckpoint :=
  { n with realtimeCheckpoint := (timestamp : ℕ∞) }

/-- Field assignment `n.finalityCheckpoint = timestamp`. -/
def setFinalityCkpt (timestamp : ℕ) (n : NetworkCheckpoint) : NetworkCheckpoint :=
  { n with finalityCheckpoint := (timestamp : ℕ∞) }

/-- Field assignment `n.isHistoricalSyncComplete = true`. -/
def setSyncCompleteFlag (n : NetworkCheckpoint) : NetworkCheckpoint :=
  { n with isHistoricalSyncComplete := true }

/-- Replace the per-network record of the service state. -/
def withRecord (s : AggState) (rec : List (ℕ × NetworkCheckpoint)) : AggState :=
  { s with networkCheckpoints := rec }

/-- `handleNewHistoricalCheckpoint` (gql-service.ts lines 189-206).  For an
unregistered chainId the JS body throws a `TypeError` on
`this.networkCheckpoints[chainId].historicalCheckpoint = timestamp` before any
mutation, modelled as `none`. -/
def handleNewHistoricalCheckpoint (s : AggState) (chainId timestamp : ℕ) :
    Option (AggState × Option ℕ∞) :=
  if recordHas s.networkCheckpoints chainId then
    some (recalculateCheckpoint (withRecord s
      (recordSet s.networkCheckpoints chainId (setHistoricalCkpt timestamp))))
  else none

/-- `handleNewRealtimeCheckpoint` (gql-service.ts lines 227-244). -/
def handleNewRealtimeCheckpoint (s : AggState) (chainId timestamp : ℕ) :
    Option (AggState × Option ℕ∞) :=
  if recordHas s.networkCheckpoints chainId then
    some (recalculateCheckpoint (withRecord s
      (recordSet s.networkCheckpoints chainId (setRealtimeCkpt timestamp))))
  else none

/-- `handleNewFinalityCheckpoint` (gql-service.ts lines 246-255).  The second
component is the emitted `newFinalityCheckpoint` payload. -/
def handleNewFinalityCheckpoint (s : AggState) (chainId timestamp : ℕ) :
    Option (AggState × Option ℕ∞) :=
  if recordHas s.networkCheckpoints chainId then
    some (recalculateFinalityCheckpoint (withRecord s
      (recordSet s.networkCheckpoints chainId (setFinalityCkpt timestamp))))
  else none

/-- Value `Math.max(...networkCheckpoints.map(n => n.historicalCheckpoint))`
(gql-service.ts lines 215-217). -/
def aggMaxHistorical (s : AggState) : ℕ∞ :=
  mathMax (s.networkCheckpoints.map fun p => p.2.historicalCheckpoint)

/-- Store `historicalSyncCompletedAt = Math.max(...historicals)`. -/
def withSyncCompletedAt (s : AggState) : AggState :=
  { s with historicalSyncCompletedAt := some (aggMaxHistorical s) }

/-- Tail of `handleHistoricalSyncComplete` (gql-service.ts lines 212-224): once
the flag is set and `recalculateCheckpoint` has run, whenever every network's
flag is set, store `historicalSyncCompletedAt = Math.max` of the historical
checkpoints. -/
def syncCompleteUpdate (r : AggState × Option ℕ∞) : AggState × Option ℕ∞ :=
  if r.1.networkCheckpoints.all (fun p => p.2.isHistoricalSyncComplete) then
    (withSyncCompletedAt r.1, r.2)
  else r

/-- `handleHistoricalSyncComplete` (gql-service.ts lines 208-225): set the
flag, recalculate, then run `syncCompleteUpdate`. -/
def handleHistoricalSyncComplete (s : AggState) (chainId : ℕ) :
    Option (AggState × Option ℕ∞) :=
  if recordHas s.networkCheckpoints chainId then
    some (syncCompleteUpdate (recalculateCheckpoint (withRecord s
      (recordSet s.networkCheckpoints chainId setSyncCompleteFlag))))
  else none

/-- One inbound call to the aggregator's checkpoint handlers. -/
inductive AggEvent where
  | newHistorical (chainId timestamp : ℕ)
  | syncComplete (chainId : ℕ)
  | newRealtime (chainId timestamp : ℕ)
  | newFinality (chainId timestamp : ℕ)
deriving DecidableEq

/-- Resulting service state of one handler call: a call that throws in JS
(unregistered chainId) leaves every field of the service untouched, because
the throw happens before the first mutation. -/
def stepState (s : AggState) (o : Option (AggState × Option ℕ∞)) : AggState :=
  match o with
  | some r => r.1
  | none => s

/-- Apply one handler call to the service state. -/
def applyAggEvent (s : AggState) (e : AggEvent) : AggState :=
  match e with
  | .newHistorical c t => stepState s (handleNewHistoricalCheckpoint s c t)
  | .syncComplete c => stepState s (handleHistoricalSyncComplete s c)
  | .newRealtime c t => stepState s (handleNewRealtimeCheckpoint s c t)
  | .newFinality c t => stepState s (handleNewFinalityCheckpoint s c t)

/-- State of the aggregator after a finite sequence of handler calls, starting
from the freshly constructed service. -/
def aggRun (chainIds : List ℕ) (es : List AggEvent) : AggState :=
  es.foldl applyAggEvent (initAggState chainIds)

/-! Minimum lemmas for `mathMin`. -/

theorem mathMin_le (xs : List ℕ∞) : ∀ x ∈ xs, mathMin xs ≤ x := by
  induction xs with
  | nil => intro x hx; cases hx
  | cons a t ih =>
    intro x hx
    rcases List.mem_cons.mp hx with h | h
    · subst h
      exact min_le_left _ _
    · exact le_trans (min_le_right a (mathMin t)) (ih x h)

theorem mathMin_attained (xs : List ℕ∞) (h : xs ≠ []) :
    ∃ x ∈ xs, mathMin xs = x := by
  induction xs with
  | nil => exact absurd rfl h
  | cons a t ih =>
    cases t with
    | nil =>
      refine ⟨a, List.mem_cons_self a _, ?_⟩
      simp [mathMin]
    | cons b t2 =>
      rcases ih (by simp) with ⟨x, hx, hmin⟩
      rcases min_choice a (mathMin (b :: t2)) with hc | hc
      · exact ⟨a, List.mem_cons_self a _, hc⟩
      · exact ⟨x, List.mem_cons_of_mem a hx, hc.trans hmin⟩

/-! Shape lemmas for `recalculateCheckpoint` and the handlers. -/

theorem recalculateCheckpoint_fst_checkpoint (s : AggState) :
    (recalculateCheckpoint s).1.checkpoint = max s.checkpoint (globalCheckpoint s) := by
  unfold recalculateCheckpoint
  split
  · next h => exact (max_eq_right (le_of_lt h)).symm
  · next h => exact (max_eq_left (le_of_not_lt h)).symm

theorem recalculateCheckpoint_snd (s : AggState) :
    (recalculateCheckpoint s).2 =
      if s.checkpoint < globalCheckpoint s then some (globalCheckpoint s)
      else none := by
  unfold recalculateCheckpoint
  split <;> rfl

theorem checkpoint_le_recalculate (s : AggState) :
    s.checkpoint ≤ (recalculateCheckpoint s).1.checkpoint := by
  rw [recalculateCheckpoint_fst_checkpoint]
  exact le_max_left _ _

theorem recalculateFinality_fst_checkpoint (s : AggState) :
    (recalculateFinalityCheckpoint s).1.checkpoint = s.checkpoint := by
  unfold recalculateFinalityCheckpoint
  split <;> rfl

theorem syncCompleteUpdate_fst_checkpoint (r : AggState × Option ℕ∞) :
    (syncCompleteUpdate r).1.checkpoint = r.1.checkpoint := by
  unfold syncCompleteUpdate withSyncCompletedAt
  split <;> rfl

theorem stepState_checkpoint_mono (s : AggState) (o : Option (AggState × Option ℕ∞))
    (h : ∀ r, o = some r → s.checkpoint ≤ r.1.checkpoint) :
    s.checkpoint ≤ (stepState s o).checkpoint := by
  cases o with
  | none => exact le_refl _
  | some r => exact h r rfl

theorem applyAggEvent_checkpoint_mono (s : AggState) (e : AggEvent) :
    s.checkpoint ≤ (applyAggEvent s e).checkpoint := by
  cases e with
  | newHistorical c t =>
    refine stepState_checkpoint_mono s _ ?_
    intro r hr
    unfold handleNewHistoricalCheckpoint at hr
    split at hr
    · simp only [Option.some.injEq] at hr
      subst hr
      exact checkpoint_le_recalculate _
    · exact Option.noConfusion hr
  | syncComplete c =>
    refine stepState_checkpoint_mono s _ ?_
    intro r hr
    unfold handleHistoricalSyncComplete at hr
    split at hr
    · simp only [Option.some.injEq] at hr
      subst hr
      rw [syncCompleteUpdate_fst_checkpoint]
      exact checkpoint_le_recalculate _
    · exact Option.noConfusion hr
  | newRealtime c t =>
    refine stepState_checkpoint_mono s _ ?_
    intro r hr
    unfold handleNewRealtimeCheckpoint at hr
    split at hr
    · simp only [Option.some.injEq] at hr
      subst hr
      exact checkpoint_le_recalculate _
    · exact Option.noConfusion hr
  | newFinality c t =>
    refine stepState_checkpoint_mono s _ ?_
    intro r hr
    unfold handleNewFinalityCheckpoint at hr
    split at hr
    · simp only [Option.some.injEq] at hr
      subst hr
      rw [recalculateFinality_fst_checkpoint]
      exact le_refl _
    · exact Option.noConfusion hr

/-- C1.  On every aggregator state, the recomputed global checkpoint
`globalCheckpoint` is the minimum of the per-network contributions
`isHistoricalSyncComplete ? max(historical, realtime) : historical`
(it is a lower bound and is attained), the `newCheckpoint` event is emitted
with exactly that value precisely when it strictly exceeds the stored
`checkpoint`, and the stored `checkpoint` becomes the larger of the two. -/
theorem claim1_recalculate_checkpoint (s : AggState)
    (h : s.networkCheckpoints ≠ []) :
    (∃ p ∈ s.networkCheckpoints, globalCheckpoint s = perNetworkCheckpoint p.2) ∧
    (∀ p ∈ s.networkCheckpoints, globalCheckpoint s ≤ perNetworkCheckpoint p.2) ∧
    (recalculateCheckpoint s).2 =
      (if s.checkpoint < globalCheckpoint s then some (globalCheckpoint s)
       else none) ∧
    (recalculateCheckpoint s).1.checkpoint = max s.checkpoint (globalCheckpoint s) := by
  refine ⟨?_, ?_, recalculateCheckpoint_snd s, recalculateCheckpoint_fst_checkpoint s⟩
  · have hne : s.networkCheckpoints.map (fun p => perNetworkCheckpoint p.2) ≠ [] := by
      intro hmap
      exact h (List.map_eq_nil_iff.mp hmap)
    rcases mathMin_attained _ hne with ⟨x, hx, hmin⟩
    rcases List.mem_map.mp hx with ⟨p, hp, hpx⟩
    exact ⟨p, hp, by rw [globalCheckpoint, hmin, hpx]⟩
  · intro p hp
    exact mathMin_le _ _ (List.mem_map_of_mem _ hp)

/-- Concrete state of §8 scenario 3: network 1 historical=50, realtime=80,
sync complete; network 2 historical=60, incomplete. -/
def twoNetworkState : AggState :=
  { checkpoint := 0
    finalityCheckpoint := 0
    historicalSyncCompletedAt := none
    networkCheckpoints :=
      [(1, { isHistoricalSyncComplete := true
             historicalCheckpoint := 50
             realtimeCheckpoint := 80
             finalityCheckpoint := 0 }),
       (2, { isHistoricalSyncComplete := false
             historicalCheckpoint := 60
             realtimeCheckpoint := 0
             finalityCheckpoint := 0 })] }

theorem claim1_recalculate_checkpoint_witness :
    twoNetworkState.networkCheckpoints ≠ [] ∧
    ((∃ p ∈ twoNetworkState.networkCheckpoints,
        globalCheckpoint twoNetworkState = perNetworkCheckpoint p.2) ∧
     (∀ p ∈ twoNetworkState.networkCheckpoints,
        globalCheckpoint twoNetworkState ≤ perNetworkCheckpoint p.2) ∧
     (recalculateCheckpoint twoNetworkState).2 =
       (if twoNetworkState.checkpoint < globalCheckpoint twoNetworkState then
          some (globalCheckpoint twoNetworkState)
        else none) ∧
     (recalculateCheckpoint twoNetworkState).1.checkpoint =
       max twoNetworkState.checkpoint (globalCheckpoint twoNetworkState)) :=
  ⟨by decide, claim1_recalculate_checkpoint twoNetworkState (by decide)⟩

/-- C2.  Along any run of the aggregator from construction — any finite
sequence of `handleNewHistoricalCheckpoint`, `handleHistoricalSyncComplete`,
`handleNewRealtimeCheckpoint`, `handleNewFinalityCheckpoint` calls, any
interleaving of chainIds (registered or not) and arbitrary, possibly
decreasing timestamps — the public `checkpoint` field never decreases between
consecutive states. -/
theorem claim2_checkpoint_monotone (chainIds : List ℕ) (es : List AggEvent)
    (e : AggEvent) :
    (aggRun chainIds es).checkpoint ≤ (aggRun chainIds (es ++ [e])).checkpoint := by
  unfold aggRun
  rw [List.foldl_append]
  exact applyAggEvent_checkpoint_mono _ e

/-! Preservation lemmas used by the sync-complete claims. -/

theorem recalculateCheckpoint_fst_record (s : AggState) :
    (recalculateCheckpoint s).1.networkCheckpoints = s.networkCheckpoints := by
  unfold recalculateCheckpoint
  split <;> rfl

theorem recalculateCheckpoint_fst_syncCompletedAt (s : AggState) :
    (recalculateCheckpoint s).1.historicalSyncCompletedAt =
      s.historicalSyncCompletedAt := by
  unfold recalculateCheckpoint
  split <;> rfl

theorem withSyncCompletedAt_record (s : AggState) :
    (withSyncCompletedAt s).networkCheckpoints = s.networkCheckpoints := rfl

/-- C8.  Calling `handleNewHistoricalCheckpoint`, `handleNewRealtimeCheckpoint`
or `handleNewFinalityCheckpoint` with a chainId the aggregator was not
constructed with throws (reading `.historicalCheckpoint` etc. of the undefined
record entry) instead of ignoring the update, and the failed call leaves the
whole service state — in particular every registered network's checkpoints —
unchanged. -/
theorem claim8_unregistered_chainId_throws (s : AggState) (chainId t : ℕ)
    (h : recordHas s.networkCheckpoints chainId = false) :
    handleNewHistoricalCheckpoint s chainId t = none ∧
    handleNewRealtimeCheckpoint s chainId t = none ∧
    handleNewFinalityCheckpoint s chainId t = none ∧
    applyAggEvent s (.newHistorical chainId t) = s ∧
    applyAggEvent s (.newRealtime chainId t) = s ∧
    applyAggEvent s (.newFinality chainId t) = s := by
  refine ⟨?_, ?_, ?_, ?_, ?_, ?_⟩ <;>
    simp [applyAggEvent, stepState, handleNewHistoricalCheckpoint,
      handleNewRealtimeCheckpoint, handleNewFinalityCheckpoint, h]

theorem claim8_unregistered_chainId_throws_witness :
    recordHas (initAggState [1]).networkCheckpoints 2 = false ∧
    (handleNewHistoricalCheckpoint (initAggState [1]) 2 7 = none ∧
     handleNewRealtimeCheckpoint (initAggState [1]) 2 7 = none ∧
     handleNewFinalityCheckpoint (initAggState [1]) 2 7 = none ∧
     applyAggEvent (initAggState [1]) (.newHistorical 2 7) = initAggState [1] ∧
     applyAggEvent (initAggState [1]) (.newRealtime 2 7) = initAggState [1] ∧
     applyAggEvent (initAggState [1]) (.newFinality 2 7) = initAggState [1]) :=
  ⟨by decide, claim8_unregistered_chainId_throws (initAggState [1]) 2 7 (by decide)⟩

/-! Model of `IndexingServerService` (part_006, lines 177-337): the variant
whose `handleHistoricalSyncComplete` maintains per-network checkpoints and the
health flag of the embedded `Server`. -/

/-- Per-network entry of the indexing server
(`NetworkCheckpoints`, resolvers.ts lines 220-226). -/
structure IndexerNetCkpt where
  isHistoricalSyncComplete : Bool
  historicalCheckpoint : ℕ
deriving DecidableEq

/-- Mutable state of `IndexingServerService`: its `isSyncComplete` flag, the
`isHealthy` flag of the wrapped `Server`, and the per-network record. -/
structure IndexingServerState where
  isSyncComplete : Bool
  serverIsHealthy : Bool
  networkCheckpoints : List (ℕ × IndexerNetCkpt)
deriving DecidableEq

/-- Key membership in the server's `Record<number, ...>`. -/
def serverRecordHas (rec : List (ℕ × IndexerNetCkpt)) (chainId : ℕ) : Bool :=
  rec.any fun p => p.1 = chainId

/-- Entry update used by `serverSetFlag`: set the flag of the matching key. -/
def serverFlagEntry (chainId : ℕ) (p : ℕ × IndexerNetCkpt) : ℕ × IndexerNetCkpt :=
  if p.1 = chainId then (p.1, { p.2 with isHistoricalSyncComplete := true }) else p

/-- Assignment `networkCheckpoints[chainId].isHistoricalSyncComplete = true`
(part_006 line 311). -/
def serverSetFlag (s : IndexingServerState) (chainId : ℕ) : IndexingServerState :=
  { s with networkCheckpoints := s.networkCheckpoints.map (serverFlagEntry chainId) }

/-- `setIsSyncComplete` (part_006 lines 288-296): sets `isSyncComplete` and
`server.isHealthy`. -/
def serverSetSyncComplete (s : IndexingServerState) : IndexingServerState :=
  { s with isSyncComplete := true, serverIsHealthy := true }

/-- `IndexingServerService.handleHistoricalSyncComplete` (part_006 lines
306-318): set the per-network flag (throwing on an unregistered chainId,
modelled as `none`), then call `setIsSyncComplete` when every network has
completed the historical sync.  The pubsub publication carries no state. -/
def serverHandleHistoricalSyncComplete (s : IndexingServerState) (chainId : ℕ) :
    Option IndexingServerState :=
  if serverRecordHas s.networkCheckpoints chainId then
    if (serverSetFlag s chainId).networkCheckpoints.all
        (fun p => p.2.isHistoricalSyncComplete) then
      some (serverSetSyncComplete (serverSetFlag s chainId))
    else some (serverSetFlag s chainId)
  else none

/-- Aggregator state in which every network has already completed the
historical sync and `historicalSyncCompletedAt` was previously recorded as 5,
while the (since advanced) historical checkpoint is 10. -/
def allCompleteState : AggState :=
  { checkpoint := 10
    finalityCheckpoint := 0
    historicalSyncCompletedAt := some 5
    networkCheckpoints :=
      [(1, { isHistoricalSyncComplete := true
             historicalCheckpoint := 10
             realtimeCheckpoint := 0
             finalityCheckpoint := 0 })] }

/-- C9 counterexample.  In `allCompleteState` every configured network is
already complete (so this call completes no network), yet
`handleHistoricalSyncComplete` sets `historicalSyncCompletedAt` again — from
`some 5` to `some 10` — refuting that only the call that makes every network
complete sets it. -/
theorem claim9_counterexample :
    (allCompleteState.networkCheckpoints.all
      fun p => p.2.isHistoricalSyncComplete) = true ∧
    allCompleteState.historicalSyncCompletedAt = some 5 ∧
    (handleHistoricalSyncComplete allCompleteState 1).map
      (fun r => r.1.historicalSyncCompletedAt) = some (some 10) := by
  decide

/-- C9 (amended).  A `handleHistoricalSyncComplete` call after which a strict
subset of the configured networks is complete leaves the aggregator's
`historicalSyncCompletedAt` — and, on the indexing server, the `isSyncComplete`
and `server.isHealthy` flags — unchanged; every call after which all configured
networks are complete (including calls made when all already were) sets
`historicalSyncCompletedAt` to the maximum of the per-network historical
checkpoints at that moment, and sets the indexing server's flags. -/
theorem claim9_sync_complete_gating :
    (∀ (s : AggState) (c : ℕ) (s2 : AggState) (em : Option ℕ∞),
      handleHistoricalSyncComplete s c = some (s2, em) →
      ((s2.networkCheckpoints.all fun p => p.2.isHistoricalSyncComplete) = false →
        s2.historicalSyncCompletedAt = s.historicalSyncCompletedAt) ∧
      ((s2.networkCheckpoints.all fun p => p.2.isHistoricalSyncComplete) = true →
        s2.historicalSyncCompletedAt = some (aggMaxHistorical s2))) ∧
    (∀ (t : IndexingServerState) (c : ℕ) (t2 : IndexingServerState),
      serverHandleHistoricalSyncComplete t c = some t2 →
      ((t2.networkCheckpoints.all fun p => p.2.isHistoricalSyncComplete) = false →
        t2.isSyncComplete = t.isSyncComplete ∧ t2.serverIsHealthy = t.serverIsHealthy) ∧
      ((t2.networkCheckpoints.all fun p => p.2.isHistoricalSyncComplete) = true →
        t2.isSyncComplete = true ∧ t2.serverIsHealthy = true)) := by
  constructor
  · intro s c s2 em h
    unfold handleHistoricalSyncComplete at h
    split at h
    · simp only [Option.some.injEq] at h
      unfold syncCompleteUpdate at h
      split at h
      · next hall =>
        have h2 : s2 = withSyncCompletedAt (recalculateCheckpoint (withRecord s
            (recordSet s.networkCheckpoints c setSyncCompleteFlag))).1 :=
          (congrArg Prod.fst h).symm
        subst h2
        constructor
        · intro hfalse
          rw [withSyncCompletedAt_record, recalculateCheckpoint_fst_record] at hfalse
          rw [recalculateCheckpoint_fst_record] at hall
          rw [hfalse] at hall
          exact Bool.noConfusion hall
        · intro _
          rfl
      · next hall =>
        have h2 : s2 = (recalculateCheckpoint (withRecord s
            (recordSet s.networkCheckpoints c setSyncCompleteFlag))).1 :=
          (congrArg Prod.fst h).symm
        subst h2
        constructor
        · intro _
          rw [recalculateCheckpoint_fst_syncCompletedAt]
          rfl
        · intro htrue
          exact absurd htrue hall
    · exact Option.noConfusion h
  · intro t c t2 h
    unfold serverHandleHistoricalSyncComplete at h
    split at h
    · split at h
      · next hall =>
        simp only [Option.some.injEq] at h
        subst h
        constructor
        · intro hfalse
          rw [show (serverSetSyncComplete (serverSetFlag t c)).networkCheckpoints =
              (serverSetFlag t c).networkCheckpoints from rfl, hall] at hfalse
          exact Bool.noConfusion hfalse
        · intro _
          exact ⟨rfl, rfl⟩
      · next hall =>
        simp only [Option.some.injEq] at h
        subst h
        constructor
        · intro _
          exact ⟨rfl, rfl⟩
        · intro htrue
          exact absurd htrue hall
    · exact Option.noConfusion h

/-- Aggregator state produced by completing network 1 of `initAggState [1, 2]`:
a strict subset of the two configured networks is complete. -/
def partialCompleteState : AggState :=
  { checkpoint := 0
    finalityCheckpoint := 0
    historicalSyncCompletedAt := none
    networkCheckpoints :=
      [(1, { isHistoricalSyncComplete := true
             historicalCheckpoint := 0
             realtimeCheckpoint := 0
             finalityCheckpoint := 0 }),
       (2, initialNetworkCheckpoint)] }

theorem claim9_sync_complete_gating_witness :
    (handleHistoricalSyncComplete (initAggState [1, 2]) 1 =
        some (partialCompleteState, none) ∧
      (((partialCompleteState.networkCheckpoints.all
          fun p => p.2.isHistoricalSyncComplete) = false →
        partialCompleteState.historicalSyncCompletedAt =
          (initAggState [1, 2]).historicalSyncCompletedAt) ∧
       ((partialCompleteState.networkCheckpoints.all
          fun p => p.2.isHistoricalSyncComplete) = true →
        partialCompleteState.historicalSyncCompletedAt =
          some (aggMaxHistorical partialCompleteState)))) ∧
    (serverHandleHistoricalSyncComplete
        { isSyncComplete := false
          serverIsHealthy := false
          networkCheckpoints := [(1, { isHistoricalSyncComplete := false
                                       historicalCheckpoint := 0 })] } 1 =
        some { isSyncComplete := true
               serverIsHealthy := true
               networkCheckpoints := [(1, { isHistoricalSyncComplete := true
                                            historicalCheckpoint := 0 })] }) :=
  ⟨⟨by decide,
    claim9_sync_complete_gating.1 (initAggState [1, 2]) 1 partialCompleteState none
      (by decide)⟩,
   by decide⟩

/-! Network configuration (`packages/core/src/config/networks.ts`). -/

/-- Occurrence of `needle` at the start of `hay`, on character lists. -/
def startsWithChars : List Char → List Char → Bool
  | _, [] => true
  | [], _ :: _ => false
  | a :: hay, b :: needle => a = b && startsWithChars hay needle

/-- JS `String.prototype.includes`: `needle` occurs somewhere in `hay`. -/
def hasSubChars (needle : List Char) : List Char → Bool
  | [] => startsWithChars [] needle
  | a :: t => startsWithChars (a :: t) needle || hasSubChars needle t

/-- JS `hay.includes(needle)` on Lean strings. -/
def strIncludes (hay needle : String) : Bool :=
  hasSubChars needle.toList hay.toList

/-- Guard `network.rpcUrl !== undefined && network.rpcUrl.includes("quiknode.pro")`
(networks.ts line 85). -/
def rpcUrlHasQuiknode (rpcUrl : Option String) : Bool :=
  match rpcUrl with
  | some u => strIncludes u "quiknode.pro"
  | none => false

/-- Chain ids of the `switch` cases in `getDefaultMaxBlockRange`
(networks.ts lines 93-120): mainnet and mainnet testnets. -/
def mainnetFamily : List ℕ := [1, 3, 4, 5, 42, 11155111]

/-- Optimism chain ids (networks.ts lines 104-106). -/
def optimismFamily : List ℕ := [10, 420]

/-- Polygon chain ids (networks.ts lines 109-111). -/
def polygonFamily : List ℕ := [137, 80001]

/-- Arbitrum chain ids (networks.ts lines 114-116). -/
def arbitrumFamily : List ℕ := [42161, 421613]

/-- The `switch (network.chainId)` of `getDefaultMaxBlockRange`
(networks.ts lines 92-120), written as the equivalent membership chain. -/
def defaultMaxBlockRangeSwitch (chainId : ℕ) : ℕ :=
  if chainId ∈ mainnetFamily then 2000
  else if chainId ∈ optimismFamily then 50000
  else if chainId ∈ polygonFamily then 50000
  else if chainId ∈ arbitrumFamily then 50000
  else 50000

/-- `getDefaultMaxBlockRange` (networks.ts lines 80-123): the Quicknode check
on `rpcUrl` runs first and short-circuits the chainId switch. -/
def getDefaultMaxBlockRange (rpcUrl : Option String) (chainId : ℕ) : ℕ :=
  if rpcUrlHasQuiknode rpcUrl then 10000
  else defaultMaxBlockRangeSwitch chainId

/-- C5 counterexample.  ChainId 1 is in the mainnet family, yet with a
Quicknode rpcUrl the function returns 10000, not the 2000 the claim requires
for mainnet-family chain ids: the Quicknode clause takes precedence. -/
theorem claim5_counterexample :
    1 ∈ mainnetFamily ∧
    getDefaultMaxBlockRange (some "https://ex.quiknode.pro/abc") 1 = 10000 ∧
    getDefaultMaxBlockRange (some "https://ex.quiknode.pro/abc") 1 ≠ 2000 := by
  decide

/-- C5 (amended).  `defaultMaxBlockRange` is 10000 whenever `rpcUrl` contains
`quiknode.pro` (this check takes precedence); otherwise 2000 for chainId in
{1, 3, 4, 5, 42, 11155111}; otherwise 50000. -/
theorem claim5_default_max_block_range (rpcUrl : Option String) (chainId : ℕ) :
    (rpcUrlHasQuiknode rpcUrl = true →
      getDefaultMaxBlockRange rpcUrl chainId = 10000) ∧
    (rpcUrlHasQuiknode rpcUrl = false → chainId ∈ mainnetFamily →
      getDefaultMaxBlockRange rpcUrl chainId = 2000) ∧
    (rpcUrlHasQuiknode rpcUrl = false → chainId ∉ mainnetFamily →
      getDefaultMaxBlockRange rpcUrl chainId = 50000) := by
  refine ⟨?_, ?_, ?_⟩
  · intro h
    unfold getDefaultMaxBlockRange
    rw [h]
    rfl
  · intro h hm
    unfold getDefaultMaxBlockRange defaultMaxBlockRangeSwitch
    rw [h]
    simp only [Bool.false_eq_true, if_false]
    rw [if_pos hm]
  · intro h hm
    unfold getDefaultMaxBlockRange defaultMaxBlockRangeSwitch
    rw [h]
    simp only [Bool.false_eq_true, if_false]
    rw [if_neg hm]
    split
    · rfl
    split
    · rfl
    split
    · rfl
    rfl

theorem claim5_default_max_block_range_witness :
    rpcUrlHasQuiknode (some "https://eth-mainnet.alchemy.example") = false ∧
    1 ∈ mainnetFamily ∧
    getDefaultMaxBlockRange (some "https://eth-mainnet.alchemy.example") 1 = 2000 :=
  ⟨by decide, by decide,
    (claim5_default_max_block_range (some "https://eth-mainnet.alchemy.example") 1).2.1
      (by decide) (by decide)⟩

/-! HTTP health endpoint (`Server.start`, part_005 lines 80-97; the identical
handlers of `IndexingServerService.start` in part_006 lines 93-110 use
`isSyncComplete` as the flag). -/

/-- GET `/health`: 200 when the healthy flag is set; otherwise 200 when
`elapsed > max` and 503 otherwise, where `elapsed` is
`Math.floor(process.uptime())` in whole seconds. -/
def healthHandler (isHealthy : Bool) (elapsed maxHealthcheckDuration : ℕ) : ℕ :=
  if isHealthy then 200
  else if maxHealthcheckDuration < elapsed then 200
  else 503

/-- Modelled from the spec: the options builder (`config/options.ts`) is not
under src/ — only its import and the config doc comment are.  Spec §6 gives
`maxHealthcheckDuration (seconds, default 240)`, matching the doc comment on
`ResolvedConfig.options.maxHealthcheckDuration` in
src/packages/core/src/config/networks.ts (`Default: 240 (4 minutes)`). -/
def defaultMaxHealthcheckDuration : ℕ := 240

/-- C7.  The `/health` endpoint replies 200 whenever the healthy flag is set;
with the flag unset it replies 200 exactly when the elapsed whole-second
process uptime strictly exceeds `maxHealthcheckDuration`, and 503 exactly
otherwise; the default `maxHealthcheckDuration` is 240 seconds. -/
theorem claim7_health_endpoint (elapsed m : ℕ) :
    healthHandler true elapsed m = 200 ∧
    (healthHandler false elapsed m = 200 ↔ m < elapsed) ∧
    (healthHandler false elapsed m = 503 ↔ elapsed ≤ m) ∧
    defaultMaxHealthcheckDuration = 240 := by
  refine ⟨rfl, ?_, ?_, rfl⟩
  · by_cases h : m < elapsed
    all_goals simp [healthHandler, h]
  · by_cases h : m < elapsed
    all_goals simp [healthHandler, h]
    all_goals omega

/-! Indexing-server `getLogEvents` resolver (resolvers.ts lines 46-79). -/

/-- Page size constant `PAGE_SIZE` (resolvers.ts line 22). -/
def PAGE_SIZE : ℕ := 10000

/-- Modelled from the spec: the SQLite/Postgres implementations of
`eventStore.getLogEvents` are not under src/ — only the `EventStore` interface
declaration is.  Spec §4.1: "Each page contains at most `pageSize` logs"; the
first page therefore holds the first `pageSize` events of the ordered matching
stream. -/
def storeGetLogEventsFirstPage {α : Type} (matchingEvents : List α)
    (pageSize : ℕ) : List α :=
  matchingEvents.take pageSize

/-- The `getLogEvents` resolver: requests the first page from
`eventStore.getLogEvents` with `pageSize = PAGE_SIZE` and returns it with
`metadata.isLastPage = events.length < PAGE_SIZE` (resolvers.ts line 73). -/
def getLogEventsResolver {α : Type} (matchingEvents : List α) : List α × Bool :=
  (storeGetLogEventsFirstPage matchingEvents PAGE_SIZE,
    decide ((storeGetLogEventsFirstPage matchingEvents PAGE_SIZE).length < PAGE_SIZE))

/-- C4.  Every `getLogEvents` response holds at most `PAGE_SIZE = 10000`
events; `metadata.isLastPage` is true exactly when the returned page holds
strictly fewer than 10000 events — so a final page of exactly 10000 events is
reported with `isLastPage = false`. -/
theorem claim4_page_size (α : Type) (matching : List α) :
    (getLogEventsResolver matching).1.length ≤ PAGE_SIZE ∧
    ((getLogEventsResolver matching).2 = true ↔
      (getLogEventsResolver matching).1.length < PAGE_SIZE) ∧
    ((getLogEventsResolver matching).2 = false ↔
      (getLogEventsResolver matching).1.length = PAGE_SIZE) := by
  have hlen : (storeGetLogEventsFirstPage matching PAGE_SIZE).length ≤ PAGE_SIZE :=
    List.length_take_le _ _
  refine ⟨hlen, by simp [getLogEventsResolver], ?_⟩
  show decide ((storeGetLogEventsFirstPage matching PAGE_SIZE).length < PAGE_SIZE) = false ↔
    (storeGetLogEventsFirstPage matching PAGE_SIZE).length = PAGE_SIZE
  constructor
  · intro h2
    have h3 := of_decide_eq_false h2
    omega
  · intro h2
    apply decide_eq_false
    omega

/-! Decoding of streamed events in `GqlEventAggregatorService.getEvents`
(gql-service.ts lines 138-180). -/

/-- The `LogEventMetadata` looked up by selector; its `abiItem` is only ever
passed to the external `decodeEventLog` and is represented by the decode
oracle instead. -/
structure LogEventMetadata where
  safeName : String
deriving DecidableEq

/-- Raw log of a streamed event: its topics (topic0 first) and data. -/
structure RawLog where
  topics : List String
  data : String
deriving DecidableEq

/-- One raw event of a `getLogEvents` page. -/
structure RawEvent where
  logFilterName : String
  log : RawLog
deriving DecidableEq

/-- `includeLogFilterEvents`: filter name → `bySelector` map. -/
abbrev IncludeLogFilterEvents := List (String × List (String × LogEventMetadata))

/-- Lookup `includeLogFilterEvents[logFilterName]?.bySelector[selector]`
(gql-service.ts lines 146-147). -/
def lookupBySelector (includeEvents : IncludeLogFilterEvents)
    (filterName selector : String) : Option LogEventMetadata :=
  match includeEvents.lookup filterName with
  | none => none
  | some bySelector => bySelector.lookup selector

/-- A decoded `LogEvent` pushed onto the accumulator (gql-service.ts
lines 162-169); `params` stands for the decoded argument object. -/
structure DecodedEvent where
  logFilterName : String
  eventName : String
  params : String
deriving DecidableEq

/-- The `events.reduce` body of `getEvents` (gql-service.ts lines 138-180),
with the external `viem.decodeEventLog` call as the `decode` oracle (`none`
models a decode throw).  A missing or empty (JS-falsy) `topics[0]` throws, a
selector absent from `includeLogFilterEvents` throws (both abort the
generator), and only a `decodeEventLog` failure is logged and skipped.  Error
messages abbreviate the source's interpolated strings. -/
def decodeEventList (decode : RawLog → Option String)
    (includeEvents : IncludeLogFilterEvents) :
    List RawEvent → Except String (List DecodedEvent)
  | [] => Except.ok []
  | e :: rest =>
    match e.log.topics.head? with
    | none => Except.error "Received an event log with no selector"
    | some selector =>
      if selector = "" then Except.error "Received an event log with no selector"
      else
        match lookupBySelector includeEvents e.logFilterName selector with
        | none => Except.error "Metadata for event not found in includeLogFilterEvents"
        | some md =>
          match decode e.log with
          | some args =>
            match decodeEventList decode includeEvents rest with
            | Except.ok tail =>
              Except.ok ({ logFilterName := e.logFilterName
                           eventName := md.safeName
                           params := args } :: tail)
            | Except.error msg => Except.error msg
          | none => decodeEventList decode includeEvents rest

/-- Success test on an `Except` result. -/
def exceptIsOk {ε α : Type} : Except ε α → Bool
  | Except.ok _ => true
  | Except.error _ => false

/-- Event whose topic0 selector `0xdead` is registered for no filter. -/
def c3Event : RawEvent :=
  { logFilterName := "f", log := { topics := ["0xdead"], data := "0x" } }

/-- C3 counterexample.  An event whose topic0 is not found in the registered
ABI set (`includeLogFilterEvents`) is not skipped: `getEvents` throws
(`Metadata for event ... not found`), aborting the stream even though the
decode oracle would succeed. -/
theorem claim3_counterexample :
    lookupBySelector [("f", [])] "f" "0xdead" = none ∧
    exceptIsOk (decodeEventList (fun _ => some "args") [("f", [])] [c3Event]) = false := by
  decide

/-- C3 (amended).  In `getEvents`, only a failure of `decodeEventLog` on a log
whose topic0 *is* registered is logged and skipped, with iteration continuing
over the remaining events of the page; a log whose topic0 selector is absent
from `includeLogFilterEvents` instead raises an error that aborts the
stream. -/
theorem claim3_decode_failures :
    (∀ (decode : RawLog → Option String) (includeEvents : IncludeLogFilterEvents)
        (e : RawEvent) (rest : List RawEvent) (selector : String)
        (md : LogEventMetadata),
      e.log.topics.head? = some selector → selector ≠ "" →
      lookupBySelector includeEvents e.logFilterName selector = some md →
      decode e.log = none →
      decodeEventList decode includeEvents (e :: rest) =
        decodeEventList decode includeEvents rest) ∧
    (∀ (decode : RawLog → Option String) (includeEvents : IncludeLogFilterEvents)
        (e : RawEvent) (rest : List RawEvent) (selector : String),
      e.log.topics.head? = some selector → selector ≠ "" →
      lookupBySelector includeEvents e.logFilterName selector = none →
      exceptIsOk (decodeEventList decode includeEvents (e :: rest)) = false) := by
  constructor
  · intro decode includeEvents e rest selector md hsel hne hmd hdec
    simp only [decodeEventList, hsel, if_neg hne, hmd, hdec]
  · intro decode includeEvents e rest selector hsel hne hmd
    simp only [decodeEventList, hsel, if_neg hne, hmd, exceptIsOk]

/-- Event registered under filter `f` with selector `0xaaa`. -/
def c3RegisteredEvent : RawEvent :=
  { logFilterName := "f", log := { topics := ["0xaaa"], data := "0x" } }

/-- Registry mapping filter `f`, selector `0xaaa` to event `Transfer`. -/
def c3Registry : IncludeLogFilterEvents :=
  [("f", [("0xaaa", { safeName := "Transfer" })])]

theorem claim3_decode_failures_witness :
    (c3RegisteredEvent.log.topics.head? = some "0xaaa" ∧
     "0xaaa" ≠ "" ∧
     lookupBySelector c3Registry c3RegisteredEvent.logFilterName "0xaaa" =
       some { safeName := "Transfer" } ∧
     (fun (_ : RawLog) => (none : Option String)) c3RegisteredEvent.log = none ∧
     decodeEventList (fun _ => none) c3Registry [c3RegisteredEvent] =
       decodeEventList (fun _ => none) c3Registry []) ∧
    (c3Event.log.topics.head? = some "0xdead" ∧
     "0xdead" ≠ "" ∧
     lookupBySelector c3Registry c3Event.logFilterName "0xdead" = none ∧
     exceptIsOk (decodeEventList (fun _ => none) c3Registry [c3Event]) = false) :=
  ⟨⟨by decide, by decide, by decide, rfl,
    claim3_decode_failures.1 (fun _ => none) c3Registry c3RegisteredEvent [] "0xaaa"
      { safeName := "Transfer" } (by decide) (by decide) (by decide) rfl⟩,
   ⟨by decide, by decide, by decide,
    claim3_decode_failures.2 (fun _ => none) c3Registry c3Event [] "0xdead"
      (by decide) (by decide) (by decide)⟩⟩

/-! Paid RPC transport (`PaidRPCProvider`, part_003 lines 11-120, and
`PaymentService.payNetwork`, payment/service.ts lines 311-322). -/

/-- Errors thrown across the paid transport. -/
inductive JsError where
  | assertionError (msg : String)
  | typeError (msg : String)
  | rpcRequestError (method rpcErr : String)
  | httpRequestError (details : String)
  | timeoutError
deriving DecidableEq

/-- Payment voucher returned by `payNetwork`. -/
structure Voucher where
  vhash : String
  vsig : String
deriving DecidableEq

/-- Per-network payments entry of `PaymentService.networkPaymentsMap`. -/
structure NetworkPayments where
  paymentChannelId : Option String
  amount : String
deriving DecidableEq

/-- `PaymentService.payNetwork` (payment/service.ts lines 311-322): look up
the network's payments entry, `assert(networkPayments.paymentChannelId,
"Payment channel not created")`, then delegate to the external
`paymentsManager.sendPayment` (the `sendPayment` oracle).  An unknown network
name throws a `TypeError` reading `.paymentChannelId` of `undefined`. -/
def payNetwork (networkPaymentsMap : List (String × NetworkPayments))
    (sendPayment : String → String → Except JsError Voucher)
    (networkName : String) : Except JsError Voucher :=
  match networkPaymentsMap.lookup networkName with
  | none => Except.error (JsError.typeError "Cannot read properties of undefined")
  | some np =>
    match np.paymentChannelId with
    | none => Except.error (JsError.assertionError "Payment channel not created")
    | some paymentChannel => sendPayment paymentChannel np.amount

/-- JSON-RPC response body destructured as `{ error, result }`
(part_003 line 51). -/
structure RpcResponse where
  error : Option String
  result : String
deriving DecidableEq

/-- `PAID_RPC_METHODS` (networks.ts lines 7-11), the default paid set. -/
def PAID_RPC_METHODS : List String :=
  ["eth_getLogs", "eth_getBlockByNumber", "eth_getBlockByHash"]

namespace PaidRPCProvider

/-- `PaidRPCProvider.request` (part_003 lines 29-61).  For a paid method the
payment voucher is awaited first; a rejection of `payNetwork` propagates
unchanged because no try/catch encloses it.  The network layer
(`this.rpcRequest`, an external `fetch`) is the `rpcResponse` oracle, whose
own rejections (`HttpRequestError`, `TimeoutError`) also propagate; only an
`error` field of a received JSON-RPC response is wrapped in
`RpcRequestError`. -/
def request (networkPaymentsMap : List (String × NetworkPayments))
    (sendPayment : String → String → Except JsError Voucher)
    (rpcResponse : Except JsError RpcResponse)
    (paidRPCMethods : List String) (networkName method : String) :
    Except JsError String :=
  match (if paidRPCMethods.contains method then
      (payNetwork networkPaymentsMap sendPayment networkName).map some
    else Except.ok none) with
  | Except.error e => Except.error e
  | Except.ok _headers =>
    match rpcResponse with
    | Except.error e => Except.error e
    | Except.ok resp =>
      match resp.error with
      | some err => Except.error (JsError.rpcRequestError method err)
      | none => Except.ok resp.result

end PaidRPCProvider

/-- Test for a `viem.RpcRequestError` outcome. -/
def isRpcRequestError {α : Type} : Except JsError α → Bool
  | Except.error (JsError.rpcRequestError _ _) => true
  | _ => false

/-- Payments map in which no payment channel has been created with the
network. -/
def noChannelMap : List (String × NetworkPayments) :=
  [("mainnet", { paymentChannelId := none, amount := "100" })]

/-- C6 counterexample.  A paid `eth_getLogs` request for which voucher
acquisition fails (`payNetwork` asserts `Payment channel not created`)
surfaces that assertion error unchanged from `request` — not an
`RpcRequestError` — even though the RPC layer would have answered
successfully. -/
theorem claim6_counterexample :
    PaidRPCProvider.request noChannelMap
        (fun c _ => Except.ok { vhash := c, vsig := "sig" })
        (Except.ok { error := none, result := "0x1" })
        PAID_RPC_METHODS "mainnet" "eth_getLogs" =
      Except.error (JsError.assertionError "Payment channel not created") ∧
    isRpcRequestError (PaidRPCProvider.request noChannelMap
        (fun c _ => Except.ok { vhash := c, vsig := "sig" })
        (Except.ok { error := none, result := "0x1" })
        PAID_RPC_METHODS "mainnet" "eth_getLogs") = false :=
  ⟨rfl, rfl⟩

/-- C6 (amended).  For a method in the configured paid set, a failure to
acquire the payment voucher propagates unchanged out of
`request(method, params)` — as the throwing error itself (for example the
assertion error `Payment channel not created`), not wrapped into an
`RpcRequestError`. -/
theorem claim6_payment_failure_propagates
    (networkPaymentsMap : List (String × NetworkPayments))
    (sendPayment : String → String → Except JsError Voucher)
    (rpcResponse : Except JsError RpcResponse)
    (paidRPCMethods : List String) (networkName method : String) (e : JsError)
    (hm : paidRPCMethods.contains method = true)
    (hp : payNetwork networkPaymentsMap sendPayment networkName = Except.error e) :
    PaidRPCProvider.request networkPaymentsMap sendPayment rpcResponse
      paidRPCMethods networkName method = Except.error e := by
  unfold PaidRPCProvider.request
  rw [hm]
  simp only [if_true, hp, Except.map]

theorem claim6_payment_failure_propagates_witness :
    PAID_RPC_METHODS.contains "eth_getBlockByHash" = true ∧
    payNetwork noChannelMap (fun c _ => Except.ok { vhash := c, vsig := "sig" })
        "mainnet" =
      Except.error (JsError.assertionError "Payment channel not created") ∧
    PaidRPCProvider.request noChannelMap
        (fun c _ => Except.ok { vhash := c, vsig := "sig" })
        (Except.error JsError.timeoutError) PAID_RPC_METHODS "mainnet"
        "eth_getBlockByHash" =
      Except.error (JsError.assertionError "Payment channel not created") :=
  ⟨by decide, rfl,
    claim6_payment_failure_propagates noChannelMap
      (fun c _ => Except.ok { vhash := c, vsig := "sig" })
      (Except.error JsError.timeoutError) PAID_RPC_METHODS "mainnet"
      "eth_getBlockByHash" (JsError.assertionError "Payment channel not created")
      (by decide) rfl⟩

/-! The `getEthBlock` resolver (resolvers.ts lines 105-170). -/

/-- A resolved value of the JS `blockTag` variable. -/
inductive BlockTag where
  | latest
  | hash (h : String)
  | number (n : ℕ)
deriving DecidableEq

/-- JS truthiness of an optional number (`0` and `undefined` are falsy). -/
def jsTruthyNat : Option ℕ → Bool
  | some n => n != 0
  | none => false

/-- JS truthiness of an optional string (`""` and `undefined` are falsy). -/
def jsTruthyStr : Option String → Bool
  | some s => s != ""
  | none => false

/-- `blockTag = blockHash ?? (blockNumber && numberToHex(blockNumber)) ?? "latest"`
(resolvers.ts lines 110-111).  `??` treats only null/undefined as missing, so
`blockNumber = 0` yields the numeric tag `0` (not `"latest"`), while an absent
blockNumber falls through to `"latest"`. -/
def initialBlockTag (blockHash : Option String) (blockNumber : Option ℕ) : BlockTag :=
  match blockHash with
  | some h => BlockTag.hash h
  | none =>
    match blockNumber with
    | some n => BlockTag.number n
    | none => BlockTag.latest

/-- Resolution of a `"latest"` tag against the realtime sync service's head
block (resolvers.ts lines 121-130): with a head block both the tag and
`blockNumber` become the head number.  Returns the final
`(blockTag, blockNumber)` pair. -/
def resolveLatest (headBlock : Option ℕ) (blockHash : Option String)
    (blockNumber : Option ℕ) : BlockTag × Option ℕ :=
  if initialBlockTag blockHash blockNumber = BlockTag.latest then
    match headBlock with
    | some hn => (BlockTag.number hn, some hn)
    | none => (BlockTag.latest, blockNumber)
  else (initialBlockTag blockHash blockNumber, blockNumber)

/-- The store query guarded by `if (blockHash || blockNumber)`
(resolvers.ts lines 134-142); with both falsy the store is not probed at
all. -/
def storeProbe {β : Type} (db : Option String → Option ℕ → Option β)
    (blockHash : Option String) (blockNumber : Option ℕ) : Option β :=
  if jsTruthyStr blockHash || jsTruthyNat blockNumber then db blockHash blockNumber
  else none

/-- `blockHash ? "eth_getBlockByHash" : "eth_getBlockByNumber"`
(resolvers.ts line 156). -/
def rpcMethodFor (blockHash : Option String) : String :=
  if jsTruthyStr blockHash then "eth_getBlockByHash" else "eth_getBlockByNumber"

/-- The `getEthBlock` resolver (resolvers.ts lines 105-170) over abstract
collaborators: `syncServices` maps each supported chainId to the realtime
service's optional head-block number, `db` is `eventStore.getEthBlock` and
`rpc` is `network.client.request`.  The result is `none` when the chainId
assertion throws; otherwise the returned block (or null) paired with the
upstream RPC method used, if any.  Response formatting (`sealFields`,
`txHashes`) is identity on the abstract block. -/
def getEthBlock {β : Type} (syncServices : List (ℕ × Option ℕ))
    (db : Option String → Option ℕ → Option β)
    (rpc : String → BlockTag → Option β)
    (chainId : ℕ) (blockHash : Option String) (blockNumber0 : Option ℕ) :
    Option (Option β × Option String) :=
  match syncServices.lookup chainId with
  | none => none
  | some headBlock =>
    match storeProbe db blockHash (resolveLatest headBlock blockHash blockNumber0).2 with
    | some b => some (some b, none)
    | none =>
      if (resolveLatest headBlock blockHash blockNumber0).1 = BlockTag.latest then
        some (none, none)
      else
        some (rpc (rpcMethodFor blockHash) (resolveLatest headBlock blockHash blockNumber0).1,
          some (rpcMethodFor blockHash))

/-- Reduction of `getEthBlock` once the chainId assertion has passed. -/
theorem getEthBlock_eq_of_lookup {β : Type} (syncServices : List (ℕ × Option ℕ))
    (db : Option String → Option ℕ → Option β) (rpc : String → BlockTag → Option β)
    (chainId : ℕ) (headBlock : Option ℕ)
    (hlk : syncServices.lookup chainId = some headBlock)
    (blockHash : Option String) (blockNumber0 : Option ℕ) :
    getEthBlock syncServices db rpc chainId blockHash blockNumber0 =
      (match storeProbe db blockHash (resolveLatest headBlock blockHash blockNumber0).2 with
       | some b => some (some b, none)
       | none =>
         if (resolveLatest headBlock blockHash blockNumber0).1 = BlockTag.latest then
           some (none, none)
         else
           some (rpc (rpcMethodFor blockHash) (resolveLatest headBlock blockHash blockNumber0).1,
             some (rpcMethodFor blockHash))) := by
  unfold getEthBlock
  rw [hlk]

/-- C10 counterexample.  An implicit `latest` query (neither `blockHash` nor
`blockNumber`) on a network whose realtime service has a head block (number 7)
that the store does not contain reaches the upstream RPC fallback
(`eth_getBlockByNumber`), so the fallback is not reserved to lookups that name
a specific block. -/
theorem claim10_counterexample :
    getEthBlock [(1, some 7)] (fun _ _ => (none : Option Unit)) (fun _ _ => none)
      1 none none = some (none, some "eth_getBlockByNumber") := by
  decide

/-- C10 (amended).  With neither `blockHash` nor `blockNumber` and no realtime
head block, `getEthBlock` returns null without probing the RPC (the store is
not even queried); and whenever the upstream RPC fallback is used, the store
probe for the *resolved* block (named by the query or taken from the realtime
head) came back empty and the resolved tag is not `latest`, the method being
chosen by the presence of `blockHash`. -/
theorem claim10_get_eth_block {β : Type} (syncServices : List (ℕ × Option ℕ))
    (db : Option String → Option ℕ → Option β) (rpc : String → BlockTag → Option β)
    (chainId : ℕ) :
    (syncServices.lookup chainId = some none →
      getEthBlock syncServices db rpc chainId none none = some (none, none)) ∧
    (∀ (blockHash : Option String) (blockNumber0 : Option ℕ)
        (headBlock : Option ℕ) (r : Option β) (m : String),
      syncServices.lookup chainId = some headBlock →
      getEthBlock syncServices db rpc chainId blockHash blockNumber0 =
        some (r, some m) →
      storeProbe db blockHash (resolveLatest headBlock blockHash blockNumber0).2 = none ∧
      (resolveLatest headBlock blockHash blockNumber0).1 ≠ BlockTag.latest ∧
      m = rpcMethodFor blockHash ∧
      r = rpc m (resolveLatest headBlock blockHash blockNumber0).1) := by
  constructor
  · intro h
    unfold getEthBlock
    rw [h]
    rfl
  · intro blockHash blockNumber0 headBlock r m hlk heq
    rw [getEthBlock_eq_of_lookup syncServices db rpc chainId headBlock hlk] at heq
    cases hsp : storeProbe db blockHash (resolveLatest headBlock blockHash blockNumber0).2 with
    | some b =>
      rw [hsp] at heq
      simp at heq
    | none =>
      rw [hsp] at heq
      by_cases hbt : (resolveLatest headBlock blockHash blockNumber0).1 = BlockTag.latest
      · rw [if_pos hbt] at heq
        simp at heq
      · rw [if_neg hbt] at heq
        simp only [Option.some.injEq, Prod.mk.injEq] at heq
        obtain ⟨hr, hm⟩ := heq
        subst hm
        exact ⟨rfl, hbt, rfl, hr.symm⟩

theorem claim10_get_eth_block_witness :
    ([((1 : ℕ), (none : Option ℕ))].lookup 1 = some none) ∧
    getEthBlock [(1, none)] (fun _ _ => (none : Option Unit)) (fun _ _ => none)
      1 none none = some (none, none) :=
  ⟨by decide,
    (claim10_get_eth_block [(1, none)] (fun _ _ => (none : Option Unit))
      (fun _ _ => none) 1).1 (by decide)⟩

end Ponder
